import Mathlib

/-!
Shallow embedding of the `audio-frequency` package (src/index.js).

The package computes, for a decoded audio buffer, an ordered sequence of
byte-normalized spectral snapshots taken at fixed time offsets, and wraps
them with axis metadata in a `FrequencyData` object.

Modelling conventions:
* JS numbers that hold sample rates, durations and frequencies are modelled
  as exact rationals (`ℚ`); `Math.floor` and `Math.ceil` become `Int.floor`
  and `Int.ceil`.
* The Web Audio `AnalyserNode` FFT kernel is external to the repository and
  treated as a black box: every theorem is universally quantified over a
  capture function `cap : List Nat → Nat → List Nat` that maps the
  analyser's previous byte frame (its smoothing state) and the frame index
  to the raw byte frame it would report at that frame's time offset.
* `getByteFrequencyData` copies the analyser output into a `Uint8Array` of
  the prepared length: the copy truncates to that length, coerces each
  entry to a byte (`% 256`) and leaves the zero-initialised tail untouched.
* A JS `Promise` that settles with a value is `Outcome.ok`, one that
  rejects is `Outcome.error`, and one that never settles is
  `Outcome.pending`.
* The JS `undefined` that a missing constructor argument produces is
  `Option.none`.
-/

set_option autoImplicit false

namespace AudioFrequency

/-- Decoded Audio Descriptor: the fields `AudioData`'s constructor copies
from the decoded `AudioBuffer` (src/index.js lines 53-59). -/
structure AudioData where
  length : Nat
  duration : ℚ
  sampleRate : ℚ
  numberOfChannels : Nat
  deriving Repr, DecidableEq

/-- The option bag of `AudioData.getFrequencyData` /
`getAudioFrequencyData` (src/index.js lines 95-100). -/
structure Options where
  sampleTimeLength : ℚ
  fftSize : Nat
  maxFrequency : ℚ
  smoothingTimeConstant : ℚ
  deriving Repr, DecidableEq

/-- The defaults of the option bag: `sampleTimeLength = 1/60`,
`fftSize = 2 ** 11`, `maxFrequency = 44100 / 2`,
`smoothingTimeConstant = 0.5` (src/index.js lines 96-99). -/
def defaultOptions : Options :=
  { sampleTimeLength := 1 / 60
    fftSize := 2 ^ 11
    maxFrequency := 44100 / 2
    smoothingTimeConstant := 1 / 2 }

/-- The result object assembled at src/index.js lines 133-140.  The
constructor (lines 14-30) copies every parameter of its destructured
argument onto the instance; `duration` is `Option ℚ` because the call
site may omit it, in which case the field holds JS `undefined`. -/
structure FrequencyData where
  data : List (List Nat)
  minFrequency : ℚ
  maxFrequency : ℚ
  frequencyBandSize : ℚ
  frequencyBinCount : ℤ
  sampleTimeLength : ℚ
  duration : Option ℚ
  deriving Repr, DecidableEq

/-- Accessor `frequencyAtBin(binIndex)` = `minFrequency + frequencyBandSize * binIndex`
(src/index.js lines 36-38). -/
def FrequencyData.frequencyAtBin (fd : FrequencyData) (binIndex : ℤ) : ℚ :=
  fd.minFrequency + fd.frequencyBandSize * (binIndex : ℚ)

/-- Accessor `timeAtSample(sampleIndex)` = `sampleIndex * sampleTimeLength`
(src/index.js lines 44-46). -/
def FrequencyData.timeAtSample (fd : FrequencyData) (sampleIndex : ℕ) : ℚ :=
  (sampleIndex : ℚ) * fd.sampleTimeLength

/-- How a JS `Promise`-returning operation can behave: settle with a value,
reject with an error, or never settle at all. -/
inductive Outcome (α : Type) where
  | ok (value : α)
  | error (name : String)
  | pending
  deriving Repr, DecidableEq

/-- Map over the settled value of an outcome. -/
def Outcome.map {α β : Type} (f : α → β) : Outcome α → Outcome β
  | .ok value => .ok (f value)
  | .error name => .error name
  | .pending => .pending

/-- The error name the Web Audio host raises when an invalid `fftSize` is
assigned to an `AnalyserNode`. -/
def invalidFftSize : String := "InvalidFftSize"

/-- Modelled from the spec: the external analyser adapter (the Web Audio
`AnalyserNode`, not part of this repository) accepts an `fftSize` exactly
when it is a power of two in the inclusive range `[2^5, 2^15]`; assigning
any other value fails the operation with `InvalidFftSize` (spec sections
4.1 and 7).  The powers of two in that range are enumerated explicitly so
that the test evaluates by kernel reduction; `validFftSize_iff` below
proves the enumeration equal to the spec's wording. -/
def validFftSize (n : Nat) : Bool :=
  n ∈ [2 ^ 5, 2 ^ 6, 2 ^ 7, 2 ^ 8, 2 ^ 9, 2 ^ 10, 2 ^ 11, 2 ^ 12, 2 ^ 13,
    2 ^ 14, 2 ^ 15]

/-- The analyser's native bin count `analyser.frequencyBinCount`, half the
FFT window size. -/
def analyserFrequencyBinCount (fftSize : Nat) : Nat := fftSize / 2

/-- The snapshot count `numSamples = Math.floor(audioBufferSource.buffer.duration /
sampleTimeLength)` (src/index.js lines 110-111). -/
def numSamples (audio : AudioData) (options : Options) : ℤ :=
  ⌊audio.duration / options.sampleTimeLength⌋

/-- The clamp `maxFrequency = Math.min(this.sampleRate / 2, maxFrequency)`
(src/index.js line 116). -/
def effectiveMaxFrequency (audio : AudioData) (options : Options) : ℚ :=
  min (audio.sampleRate / 2) options.maxFrequency

/-- The bin width `frequencyBandSize = (this.sampleRate / 2) / analyser.frequencyBinCount`
(src/index.js lines 118-119). -/
def frequencyBandSize (audio : AudioData) (options : Options) : ℚ :=
  (audio.sampleRate / 2) / (analyserFrequencyBinCount options.fftSize : ℚ)

/-- The retained bin count `frequencyBinCount = Math.min(analyser.frequencyBinCount,
Math.ceil(maxFrequency / frequencyBandSize))` with the already clamped
`maxFrequency` (src/index.js lines 120-122). -/
def frequencyBinCount (audio : AudioData) (options : Options) : ℤ :=
  min (analyserFrequencyBinCount options.fftSize : ℤ)
    ⌈effectiveMaxFrequency audio options / frequencyBandSize audio options⌉

/-- One `analyser.getByteFrequencyData(target)` call into a zero-initialised
`Uint8Array` of length `binCount`: the raw analyser frame is truncated to
the target length, every copied entry is coerced to a byte, and any tail the
raw frame did not reach stays zero. -/
def writeBytes (binCount : Nat) (raw : List Nat) : List Nat :=
  (raw.take binCount).map (fun b => b % 256) ++
    List.replicate (binCount - (raw.take binCount).length) 0

/-- The suspend/capture/resume loop of src/index.js lines 127-143, re-read
as the spec's offset-list iterator: starting at `frameIndex`, run `count`
captures in ascending frame order, threading the analyser's previous byte
frame (its smoothing state) through `cap`. -/
def runCaptures (cap : List Nat → Nat → List Nat) (binCount : Nat) :
    List Nat → Nat → Nat → List (List Nat)
  | _, _, 0 => []
  | state, frameIndex, count + 1 =>
      let raw := cap state frameIndex
      writeBytes binCount raw :: runCaptures cap binCount raw (frameIndex + 1) count

/-- The time offsets registered with `offlineContext.suspend` by the loop at
src/index.js lines 127-128: `sampleTimeLength * frameIndex` for
`frameIndex = 0, …, count - 1`, in registration order. -/
def registeredOffsets (sampleTimeLength : ℚ) (count : Nat) : List ℚ :=
  (List.range count).map
    (fun frameIndex : ℕ => sampleTimeLength * (frameIndex : ℚ))

/-- Method `AudioData.getFrequencyData` (src/index.js lines 95-147), parameterised
by the black-box analyser capture function `cap`.

* Assigning `analyser.fftSize = fftSize` (line 112) throws for an invalid
  size, so the async operation rejects with `InvalidFftSize` before the
  promise executor (and hence `startRendering`) runs.
* Otherwise `numSamples`, the clamped `maxFrequency`, `frequencyBandSize`
  and `frequencyBinCount` are computed (lines 110-122), the snapshot array
  is filled by the suspend/capture loop, and the promise resolves with the
  assembled `FrequencyData` when the callback of the last frame runs
  (lines 132-141).  When `numSamples` is zero no callback is registered and
  `resolve` is never called: the promise stays pending forever. -/
def AudioData.getFrequencyData (cap : List Nat → Nat → List Nat)
    (audio : AudioData) (options : Options) : Outcome FrequencyData :=
  if ¬ validFftSize options.fftSize then .error invalidFftSize
  else if (numSamples audio options).toNat = 0 then .pending
  else
    .ok
      { data :=
          runCaptures cap (frequencyBinCount audio options).toNat
            (List.replicate (analyserFrequencyBinCount options.fftSize) 0) 0
            (numSamples audio options).toNat
        minFrequency := 0
        maxFrequency := effectiveMaxFrequency audio options
        frequencyBandSize := frequencyBandSize audio options
        frequencyBinCount := frequencyBinCount audio options
        sampleTimeLength := options.sampleTimeLength
        duration := none }

/-- The observable steps of the top-level pipeline: fetching and decoding
the audio file, and starting the offline rendering (the analysis drive). -/
inductive Ev where
  | decode
  | render
  deriving Repr, DecidableEq

/-- The event trace of one `getAudioFrequencyData` call (src/index.js lines
172-182): `AudioData.fromFile` always fetches and decodes first (line 179);
then `getFrequencyData` either throws on an invalid `fftSize` before the
promise executor runs, or calls `startRendering` (line 144). -/
def pipelineEvents (_audio : AudioData) (options : Options) : List Ev :=
  Ev.decode ::
    (if ¬ validFftSize options.fftSize then [] else [Ev.render])

/-- Function `getAudioFrequencyData` (src/index.js lines 172-182), given the decoded
audio the fetch produced: it awaits `audioData.getFrequencyData(...)` and
returns `frequencyData.data` — the bare snapshot array (line 181). -/
def getAudioFrequencyData (cap : List Nat → Nat → List Nat)
    (audio : AudioData) (options : Options) : Outcome (List (List Nat)) :=
  Outcome.map FrequencyData.data (AudioData.getFrequencyData cap audio options)

/-- Ambient host state across invocations: the offline audio contexts (each
holding an analyser's smoothing state) created so far.  A fresh context is
constructed per call (src/index.js lines 101-104), so an invocation appends
a reset state and reads only that one. -/
structure Host where
  contexts : List (List Nat)
  deriving Repr, DecidableEq

/-- One sequential invocation of the pipeline against the host: a fresh
`OfflineAudioContext` (with analyser state reset to zeroes) is created and
recorded, and the result is computed from that fresh state alone. -/
def invoke (cap : List Nat → Nat → List Nat) (audio : AudioData)
    (options : Options) (host : Host) : Host × Outcome FrequencyData :=
  let freshState : List Nat :=
    List.replicate (analyserFrequencyBinCount options.fftSize) 0
  ({ contexts := host.contexts ++ [freshState] },
    AudioData.getFrequencyData cap audio options)

/-! ### Concrete sample inputs used by counterexamples and witnesses -/

/-- A black-box analyser stub that reports an empty raw frame. -/
def capZero : List Nat → Nat → List Nat := fun _ _ => []

/-- A one-second decoded buffer at 32 Hz. -/
def audioA : AudioData :=
  { length := 32, duration := 1, sampleRate := 32, numberOfChannels := 1 }

/-- A one-second decoded buffer at 48 Hz. -/
def audioB : AudioData :=
  { length := 48, duration := 1, sampleRate := 48, numberOfChannels := 1 }

/-- One snapshot per second, the smallest legal window, and a requested
ceiling far above Nyquist. -/
def optsWide : Options :=
  { sampleTimeLength := 1, fftSize := 32, maxFrequency := 1000,
    smoothingTimeConstant := 1 / 2 }

/-- The spec's invalid-window scenario: `fftSize = 2000`. -/
def optsBadFft : Options :=
  { sampleTimeLength := 1, fftSize := 2000, maxFrequency := 1000,
    smoothingTimeConstant := 1 / 2 }

/-- A half-second decoded buffer at 32 Hz: shorter than `optsWide`'s
one-second `sampleTimeLength`. -/
def audioShort : AudioData :=
  { length := 16, duration := 1 / 2, sampleRate := 32, numberOfChannels := 1 }

/-- The result `audioA` with `optsWide` and the stub analyser resolves to:
one all-zero 16-bin snapshot under a 16 Hz Nyquist axis. -/
def fdA : FrequencyData :=
  { data := [List.replicate 16 0]
    minFrequency := 0
    maxFrequency := 16
    frequencyBandSize := 1
    frequencyBinCount := 16
    sampleTimeLength := 1
    duration := none }

/-! ### Helper lemmas -/

/-- A `getByteFrequencyData` copy fills exactly the prepared array length. -/
theorem writeBytes_length (binCount : Nat) (raw : List Nat) :
    (writeBytes binCount raw).length = binCount := by
  simp only [writeBytes, List.length_append, List.length_map, List.length_take,
    List.length_replicate]
  omega

/-- Every entry a `getByteFrequencyData` copy produces is a byte. -/
theorem writeBytes_le (binCount : Nat) (raw : List Nat) :
    ∀ b ∈ writeBytes binCount raw, b ≤ 255 := by
  intro b hb
  simp only [writeBytes, List.mem_append, List.mem_map, List.mem_replicate] at hb
  rcases hb with ⟨x, _, rfl⟩ | ⟨-, rfl⟩
  · have : x % 256 < 256 := Nat.mod_lt x (by norm_num)
    omega
  · omega

/-- The capture loop produces exactly as many snapshots as it is asked to. -/
theorem runCaptures_length (cap : List Nat → Nat → List Nat) (binCount : Nat)
    (state : List Nat) (frameIndex count : Nat) :
    (runCaptures cap binCount state frameIndex count).length = count := by
  induction count generalizing state frameIndex with
  | zero => simp [runCaptures]
  | succ k ih => simp [runCaptures, ih]

/-- Every snapshot the capture loop produces has the prepared length and
holds only bytes. -/
theorem runCaptures_mem (cap : List Nat → Nat → List Nat) (binCount : Nat)
    (state : List Nat) (frameIndex count : Nat) :
    ∀ snap ∈ runCaptures cap binCount state frameIndex count,
      snap.length = binCount ∧ ∀ b ∈ snap, b ≤ 255 := by
  induction count generalizing state frameIndex with
  | zero => simp [runCaptures]
  | succ k ih =>
    intro snap hsnap
    simp only [runCaptures, List.mem_cons] at hsnap
    rcases hsnap with rfl | hsnap
    · exact ⟨writeBytes_length _ _, writeBytes_le _ _⟩
    · exact ih _ _ snap hsnap

/-- The enumerated `validFftSize` test agrees with the spec's wording: a
power of two lying in the inclusive range `[2^5, 2^15]`. -/
theorem validFftSize_iff (n : Nat) :
    validFftSize n = true ↔ (∃ k, n = 2 ^ k) ∧ 2 ^ 5 ≤ n ∧ n ≤ 2 ^ 15 := by
  constructor
  · intro h
    simp only [validFftSize, List.mem_cons, List.not_mem_nil, or_false,
      decide_eq_true_eq] at h
    rcases h with rfl | rfl | rfl | rfl | rfl | rfl | rfl | rfl | rfl | rfl | rfl
    · exact ⟨⟨5, rfl⟩, by norm_num⟩
    · exact ⟨⟨6, rfl⟩, by norm_num⟩
    · exact ⟨⟨7, rfl⟩, by norm_num⟩
    · exact ⟨⟨8, rfl⟩, by norm_num⟩
    · exact ⟨⟨9, rfl⟩, by norm_num⟩
    · exact ⟨⟨10, rfl⟩, by norm_num⟩
    · exact ⟨⟨11, rfl⟩, by norm_num⟩
    · exact ⟨⟨12, rfl⟩, by norm_num⟩
    · exact ⟨⟨13, rfl⟩, by norm_num⟩
    · exact ⟨⟨14, rfl⟩, by norm_num⟩
    · exact ⟨⟨15, rfl⟩, by norm_num⟩
  · rintro ⟨⟨k, rfl⟩, hlo, hhi⟩
    have hk5 : 5 ≤ k := (Nat.pow_le_pow_iff_right (by norm_num)).mp hlo
    have hk15 : k ≤ 15 := (Nat.pow_le_pow_iff_right (by norm_num)).mp hhi
    interval_cases k <;> simp [validFftSize]

/-- A `validFftSize` window is at least `2^5` samples wide. -/
theorem validFftSize_ge {n : Nat} (h : validFftSize n = true) : 2 ^ 5 ≤ n := by
  exact ((validFftSize_iff n).mp h).2.1

/-- Inversion of a successful `getFrequencyData` invocation: the window size
was valid, at least one snapshot was scheduled, and the resolved
`FrequencyData` is the assembled record of src/index.js lines 133-140. -/
theorem getFrequencyData_ok {cap : List Nat → Nat → List Nat}
    {audio : AudioData} {options : Options} {fd : FrequencyData}
    (h : AudioData.getFrequencyData cap audio options = .ok fd) :
    validFftSize options.fftSize = true ∧
    (numSamples audio options).toNat ≠ 0 ∧
    fd = { data :=
            runCaptures cap (frequencyBinCount audio options).toNat
              (List.replicate (analyserFrequencyBinCount options.fftSize) 0) 0
              (numSamples audio options).toNat
           minFrequency := 0
           maxFrequency := effectiveMaxFrequency audio options
           frequencyBandSize := frequencyBandSize audio options
           frequencyBinCount := frequencyBinCount audio options
           sampleTimeLength := options.sampleTimeLength
           duration := none } := by
  unfold AudioData.getFrequencyData at h
  split at h
  · exact absurd h (by simp)
  · split at h
    · exact absurd h (by simp)
    · rename_i hvalid hn
      refine ⟨by simpa using hvalid, hn, ?_⟩
      cases h
      rfl

/-- Evaluating the pipeline on `audioA` with `optsWide` and the stub
analyser: `numSamples = ⌊1 / 1⌋ = 1`, Nyquist `16`, native bin count `16`,
band size `1`, bin count `min 16 ⌈16 / 1⌉ = 16`. -/
theorem getFrequencyData_audioA :
    AudioData.getFrequencyData capZero audioA optsWide = .ok fdA := by
  norm_num [AudioData.getFrequencyData, validFftSize, numSamples,
    effectiveMaxFrequency, frequencyBandSize, frequencyBinCount,
    analyserFrequencyBinCount, runCaptures, writeBytes, audioA, optsWide,
    capZero, fdA]
  omega

/-! ### Claim theorems -/

/-- C1: for every decoded audio input with duration `d` and every
configuration with `sampleTimeLength s > 0`, the number of snapshots is
exactly `⌊d / s⌋`; this count is computed before analysis begins (it does
not depend on the analyser capture function), and whenever the operation
resolves, the result's snapshot sequence has exactly that length. -/
theorem C1_snapshot_count (cap : List Nat → Nat → List Nat)
    (audio : AudioData) (options : Options)
    (hs : 0 < options.sampleTimeLength) (hd : 0 ≤ audio.duration) :
    numSamples audio options = ⌊audio.duration / options.sampleTimeLength⌋ ∧
    ∀ fd, AudioData.getFrequencyData cap audio options = .ok fd →
      (fd.data.length : ℤ) = ⌊audio.duration / options.sampleTimeLength⌋ := by
  refine ⟨rfl, ?_⟩
  intro fd h
  obtain ⟨-, -, rfl⟩ := getFrequencyData_ok h
  have hnn : 0 ≤ numSamples audio options :=
    Int.floor_nonneg.mpr (div_nonneg hd hs.le)
  show ((runCaptures cap _ _ 0 (numSamples audio options).toNat).length : ℤ) = _
  rw [runCaptures_length]
  exact Int.toNat_of_nonneg hnn

/-- C1 witness: on `audioA` (duration 1 s) with `optsWide` (one snapshot a
second) the operation resolves and the data array holds
`⌊1 / 1⌋ = 1` snapshot. -/
theorem C1_snapshot_count_witness :
    AudioData.getFrequencyData capZero audioA optsWide = .ok fdA ∧
    (fdA.data.length : ℤ) = ⌊audioA.duration / optsWide.sampleTimeLength⌋ := by
  refine ⟨getFrequencyData_audioA, ?_⟩
  exact (C1_snapshot_count capZero audioA optsWide (by norm_num [optsWide])
    (by norm_num [audioA])).2 fdA getFrequencyData_audioA

/-- C2: whenever the operation resolves, the result's `maxFrequency` is the
clamp `min (sampleRate / 2, requested)`, `frequencyBandSize` is the Nyquist
frequency divided by the analyser's native bin count, `frequencyBinCount`
is `min (native bin count, ⌈maxFrequency / frequencyBandSize⌉)`, every
snapshot has exactly `frequencyBinCount` entries, and every entry lies in
`[0, 255]`. -/
theorem C2_snapshot_shape (cap : List Nat → Nat → List Nat)
    (audio : AudioData) (options : Options) (fd : FrequencyData)
    (hr : 0 < audio.sampleRate) (hm : 0 ≤ options.maxFrequency)
    (h : AudioData.getFrequencyData cap audio options = .ok fd) :
    fd.maxFrequency = min (audio.sampleRate / 2) options.maxFrequency ∧
    fd.frequencyBandSize =
      (audio.sampleRate / 2) / (analyserFrequencyBinCount options.fftSize : ℚ) ∧
    fd.frequencyBinCount =
      min (analyserFrequencyBinCount options.fftSize : ℤ)
        ⌈fd.maxFrequency / fd.frequencyBandSize⌉ ∧
    ∀ snap ∈ fd.data,
      (snap.length : ℤ) = fd.frequencyBinCount ∧ ∀ b ∈ snap, b ≤ 255 := by
  obtain ⟨-, -, rfl⟩ := getFrequencyData_ok h
  refine ⟨rfl, rfl, rfl, ?_⟩
  intro snap hsnap
  obtain ⟨hlen, hbytes⟩ := runCaptures_mem cap _ _ 0 _ snap hsnap
  refine ⟨?_, hbytes⟩
  rw [hlen]
  have hmf : 0 ≤ effectiveMaxFrequency audio options :=
    le_min (div_nonneg hr.le (by norm_num)) hm
  have hbs : 0 ≤ frequencyBandSize audio options :=
    div_nonneg (div_nonneg hr.le (by norm_num)) (Nat.cast_nonneg _)
  have hnn : 0 ≤ frequencyBinCount audio options :=
    le_min (Int.natCast_nonneg _) (Int.ceil_nonneg (div_nonneg hmf hbs))
  exact Int.toNat_of_nonneg hnn

/-- C2 witness: on `audioA` with `optsWide` the single snapshot has the 16
entries `frequencyBinCount` prescribes and every entry is a byte. -/
theorem C2_snapshot_shape_witness :
    AudioData.getFrequencyData capZero audioA optsWide = .ok fdA ∧
    (fdA.maxFrequency = min (audioA.sampleRate / 2) optsWide.maxFrequency ∧
      fdA.frequencyBandSize =
        (audioA.sampleRate / 2) /
          (analyserFrequencyBinCount optsWide.fftSize : ℚ) ∧
      fdA.frequencyBinCount =
        min (analyserFrequencyBinCount optsWide.fftSize : ℤ)
          ⌈fdA.maxFrequency / fdA.frequencyBandSize⌉ ∧
      ∀ snap ∈ fdA.data,
        (snap.length : ℤ) = fdA.frequencyBinCount ∧ ∀ b ∈ snap, b ≤ 255) := by
  refine ⟨getFrequencyData_audioA, ?_⟩
  exact C2_snapshot_shape capZero audioA optsWide fdA (by norm_num [audioA])
    (by norm_num [optsWide]) getFrequencyData_audioA

/-- C3: the spec says a `duration` shorter than `sampleTimeLength` yields an
empty snapshot sequence and is not an error, but the code never calls
`resolve` when `numSamples = 0` — no suspend callback is registered, so the
promise returned by `getFrequencyData` stays pending forever and the caller
hangs instead of receiving an empty result. -/
theorem C3_short_audio_pending (cap : List Nat → Nat → List Nat)
    (audio : AudioData) (options : Options)
    (hv : validFftSize options.fftSize = true)
    (hd : 0 ≤ audio.duration) (hs : 0 < options.sampleTimeLength)
    (hlt : audio.duration < options.sampleTimeLength) :
    AudioData.getFrequencyData cap audio options = .pending := by
  have h0 : numSamples audio options = 0 := by
    apply Int.floor_eq_zero_iff.mpr
    exact Set.mem_Ico.mpr ⟨div_nonneg hd hs.le, (div_lt_one hs).mpr hlt⟩
  unfold AudioData.getFrequencyData
  simp [hv, h0]

/-- C3 witness: a half-second buffer analysed with a one-second
`sampleTimeLength` leaves the promise pending forever. -/
theorem C3_short_audio_pending_witness :
    AudioData.getFrequencyData capZero audioShort optsWide = .pending := by
  exact C3_short_audio_pending capZero audioShort optsWide (by norm_num [validFftSize, optsWide])
    (by norm_num [audioShort]) (by norm_num [optsWide]) (by norm_num [audioShort, optsWide])

/-- C4 counterexample: the public operation `getAudioFrequencyData` does
not return the Frequency Data structure — it returns the bare snapshot
array (`frequencyData.data`, src/index.js line 181).  Two successful
invocations whose Frequency Data differ in their axis metadata
(`maxFrequency` 16 Hz for the 32 Hz signal, 24 Hz for the 48 Hz signal)
produce identical public results, so the value handed to the caller cannot
carry the axis metadata the claim requires. -/
theorem C4_bare_array_counterexample :
    getAudioFrequencyData capZero audioA optsWide =
      getAudioFrequencyData capZero audioB optsWide ∧
    Outcome.map FrequencyData.maxFrequency
      (AudioData.getFrequencyData capZero audioA optsWide) = .ok 16 ∧
    Outcome.map FrequencyData.maxFrequency
      (AudioData.getFrequencyData capZero audioB optsWide) = .ok 24 := by
  refine ⟨?_, ?_, ?_⟩ <;>
    · norm_num [getAudioFrequencyData, AudioData.getFrequencyData,
        validFftSize, numSamples, effectiveMaxFrequency, frequencyBandSize,
        frequencyBinCount, analyserFrequencyBinCount, runCaptures, writeBytes,
        audioA, audioB, optsWide, capZero, Outcome.map]

/-- C4 (amended): the inner method `AudioData.getFrequencyData` resolves
with the full Frequency Data structure — snapshots plus axis metadata
(`minFrequency`, clamped `maxFrequency`, `frequencyBandSize`,
`frequencyBinCount`, echoed `sampleTimeLength`) and the two lookup
helpers — but the top-level public `getAudioFrequencyData` strips it and
returns only the bare snapshot array `frequencyData.data`. -/
theorem C4_structure_at_inner_layer (cap : List Nat → Nat → List Nat)
    (audio : AudioData) (options : Options) (fd : FrequencyData)
    (h : AudioData.getFrequencyData cap audio options = .ok fd) :
    fd.minFrequency = 0 ∧
    fd.maxFrequency = effectiveMaxFrequency audio options ∧
    fd.frequencyBandSize = frequencyBandSize audio options ∧
    fd.frequencyBinCount = frequencyBinCount audio options ∧
    fd.sampleTimeLength = options.sampleTimeLength ∧
    (∀ binIndex : ℤ, fd.frequencyAtBin binIndex =
      fd.minFrequency + fd.frequencyBandSize * (binIndex : ℚ)) ∧
    (∀ sampleIndex : ℕ, fd.timeAtSample sampleIndex =
      (sampleIndex : ℚ) * fd.sampleTimeLength) ∧
    getAudioFrequencyData cap audio options = .ok fd.data := by
  obtain ⟨-, -, hfd⟩ := getFrequencyData_ok h
  subst hfd
  refine ⟨rfl, rfl, rfl, rfl, rfl, fun _ => rfl, fun _ => rfl, ?_⟩
  unfold getAudioFrequencyData
  rw [h]
  rfl

/-- C4 witness: on `audioA` with `optsWide`, the inner method resolves with
`fdA` (metadata and helpers intact) and the public operation returns only
`fdA.data`. -/
theorem C4_structure_at_inner_layer_witness :
    AudioData.getFrequencyData capZero audioA optsWide = .ok fdA ∧
    (fdA.minFrequency = 0 ∧
      fdA.maxFrequency = effectiveMaxFrequency audioA optsWide ∧
      fdA.frequencyBandSize = frequencyBandSize audioA optsWide ∧
      fdA.frequencyBinCount = frequencyBinCount audioA optsWide ∧
      fdA.sampleTimeLength = optsWide.sampleTimeLength ∧
      (∀ binIndex : ℤ, fdA.frequencyAtBin binIndex =
        fdA.minFrequency + fdA.frequencyBandSize * (binIndex : ℚ)) ∧
      (∀ sampleIndex : ℕ, fdA.timeAtSample sampleIndex =
        (sampleIndex : ℚ) * fdA.sampleTimeLength) ∧
      getAudioFrequencyData capZero audioA optsWide = .ok fdA.data) := by
  refine ⟨getFrequencyData_audioA, ?_⟩
  exact C4_structure_at_inner_layer capZero audioA optsWide fdA
    getFrequencyData_audioA

/-- C5 counterexample: with the spec's own scenario `fftSize = 2000`, the
operation does fail with `InvalidFftSize`, but the pipeline has already
fetched and decoded the audio file by then (`AudioData.fromFile` is awaited
at src/index.js line 179 before `getFrequencyData` runs), so the failure
does not precede all decoding work as the claim requires. -/
theorem C5_decode_precedes_counterexample :
    AudioData.getFrequencyData capZero audioA optsBadFft =
      .error invalidFftSize ∧
    Ev.decode ∈ pipelineEvents audioA optsBadFft := by
  constructor
  · norm_num [AudioData.getFrequencyData, validFftSize, optsBadFft]
  · simp [pipelineEvents]

/-- C5 (amended): for every invocation where `fftSize` is not a power of two
or lies outside `[2^5, 2^15]`, the operation fails with `InvalidFftSize`
before any analysis work occurs (the rendering drive never starts and no
snapshot is captured), but the audio has already been fetched and decoded
by the top-level pipeline when the validation runs. -/
theorem C5_invalid_fft_fails_before_analysis (cap : List Nat → Nat → List Nat)
    (audio : AudioData) (options : Options)
    (hv : validFftSize options.fftSize = false) :
    AudioData.getFrequencyData cap audio options = .error invalidFftSize ∧
    pipelineEvents audio options = [Ev.decode] := by
  constructor
  · unfold AudioData.getFrequencyData
    simp [hv]
  · unfold pipelineEvents
    simp [hv]

/-- C5 witness: the invalid window `fftSize = 2000` applied to the 48 Hz
buffer rejects with `InvalidFftSize` and the trace holds the decode step
only. -/
theorem C5_invalid_fft_fails_before_analysis_witness :
    validFftSize optsBadFft.fftSize = false ∧
    (AudioData.getFrequencyData capZero audioB optsBadFft =
        .error invalidFftSize ∧
      pipelineEvents audioB optsBadFft = [Ev.decode]) := by
  refine ⟨by norm_num [validFftSize, optsBadFft], ?_⟩
  exact C5_invalid_fft_fails_before_analysis capZero audioB optsBadFft
    (by norm_num [validFftSize, optsBadFft])

/-- C6: whenever the operation resolves, `minFrequency` is 0,
`frequencyAtBin 0` is 0, and `frequencyAtBin (frequencyBinCount - 1)` does
not exceed the effective (clamped) `maxFrequency`. -/
theorem C6_frequency_axis_bounds (cap : List Nat → Nat → List Nat)
    (audio : AudioData) (options : Options) (fd : FrequencyData)
    (hr : 0 < audio.sampleRate) (hm : 0 < options.maxFrequency)
    (h : AudioData.getFrequencyData cap audio options = .ok fd) :
    fd.minFrequency = 0 ∧
    fd.frequencyAtBin 0 = 0 ∧
    fd.frequencyAtBin (fd.frequencyBinCount - 1) ≤ fd.maxFrequency := by
  obtain ⟨hv, -, rfl⟩ := getFrequencyData_ok h
  refine ⟨rfl, by simp [FrequencyData.frequencyAtBin], ?_⟩
  have hnyq : (0 : ℚ) < audio.sampleRate / 2 := by linarith
  have hn1 : 1 ≤ analyserFrequencyBinCount options.fftSize := by
    have h32 := validFftSize_ge hv
    unfold analyserFrequencyBinCount
    omega
  have hnq : (0 : ℚ) < (analyserFrequencyBinCount options.fftSize : ℚ) := by
    exact_mod_cast Nat.lt_of_lt_of_le Nat.zero_lt_one hn1
  have hb : 0 < frequencyBandSize audio options := div_pos hnyq hnq
  have hmf : 0 < effectiveMaxFrequency audio options := lt_min hnyq hm
  have hx : 0 < effectiveMaxFrequency audio options /
      frequencyBandSize audio options := div_pos hmf hb
  show 0 + frequencyBandSize audio options *
      ((frequencyBinCount audio options - 1 : ℤ) : ℚ) ≤
    effectiveMaxFrequency audio options
  have hle : frequencyBinCount audio options ≤
      ⌈effectiveMaxFrequency audio options / frequencyBandSize audio options⌉ :=
    min_le_right _ _
  have hlt : ((frequencyBinCount audio options - 1 : ℤ) : ℚ) <
      effectiveMaxFrequency audio options / frequencyBandSize audio options := by
    have hceil := Int.ceil_lt_add_one
      (effectiveMaxFrequency audio options / frequencyBandSize audio options)
    have hcast : ((frequencyBinCount audio options - 1 : ℤ) : ℚ) ≤
        ((⌈effectiveMaxFrequency audio options /
            frequencyBandSize audio options⌉ - 1 : ℤ) : ℚ) := by
      exact_mod_cast sub_le_sub_right hle 1
    push_cast at hcast ⊢
    linarith
  have hmul := mul_lt_mul_of_pos_left hlt hb
  have hcancel : frequencyBandSize audio options *
      (effectiveMaxFrequency audio options / frequencyBandSize audio options) =
      effectiveMaxFrequency audio options := by
    field_simp
  linarith

/-- C6 witness: on `audioA` with `optsWide`, bin 0 sits at 0 Hz and the
last retained bin (index 15, at 15 Hz) stays below the effective 16 Hz
ceiling. -/
theorem C6_frequency_axis_bounds_witness :
    AudioData.getFrequencyData capZero audioA optsWide = .ok fdA ∧
    (fdA.minFrequency = 0 ∧
      fdA.frequencyAtBin 0 = 0 ∧
      fdA.frequencyAtBin (fdA.frequencyBinCount - 1) ≤ fdA.maxFrequency) := by
  refine ⟨getFrequencyData_audioA, ?_⟩
  exact C6_frequency_axis_bounds capZero audioA optsWide fdA
    (by norm_num [audioA]) (by norm_num [optsWide]) getFrequencyData_audioA

/-- C7: whenever the operation resolves, `timeAtSample i` equals
`i × sampleTimeLength` for every snapshot index `i`, where
`sampleTimeLength` is echoed from the configuration into the result. -/
theorem C7_time_axis (cap : List Nat → Nat → List Nat)
    (audio : AudioData) (options : Options) (fd : FrequencyData)
    (h : AudioData.getFrequencyData cap audio options = .ok fd) :
    fd.sampleTimeLength = options.sampleTimeLength ∧
    ∀ i : ℕ, fd.timeAtSample i = (i : ℚ) * options.sampleTimeLength := by
  obtain ⟨-, -, rfl⟩ := getFrequencyData_ok h
  exact ⟨rfl, fun _ => rfl⟩

/-- C7 witness: on `audioA` with `optsWide` the third snapshot index maps
to time `3 × 1`. -/
theorem C7_time_axis_witness :
    AudioData.getFrequencyData capZero audioA optsWide = .ok fdA ∧
    fdA.timeAtSample 3 = (3 : ℚ) * optsWide.sampleTimeLength := by
  refine ⟨getFrequencyData_audioA, ?_⟩
  exact (C7_time_axis capZero audioA optsWide fdA getFrequencyData_audioA).2 3

/-- C8: for every `sampleTimeLength > 0` the scheduler's registered capture
offsets are strictly increasing in the frame index, and the registration
loop covers every index below `numSamples` with its own offset
`sampleTimeLength × index` — nothing is captured out of order or
skipped. -/
theorem C8_offsets_monotone (s : ℚ) (n : ℕ) (hs : 0 < s) :
    (∀ i j : ℕ, i < j → s * (i : ℚ) < s * (j : ℚ)) ∧
    (registeredOffsets s n).length = n ∧
    ∀ i : ℕ, i < n → (registeredOffsets s n)[i]? = some (s * (i : ℚ)) := by
  refine ⟨?_, by rw [registeredOffsets, List.length_map, List.length_range], ?_⟩
  · intro i j hij
    have hq : (i : ℚ) < (j : ℚ) := by exact_mod_cast hij
    exact mul_lt_mul_of_pos_left hq hs
  · intro i hi
    rw [registeredOffsets, List.getElem?_map, List.getElem?_range hi]
    rfl

/-- C8 witness: with one-second spacing and three snapshots, the offsets of
frames 1 and 2 are in strict order and frame 2's registered offset is
`1 × 2`. -/
theorem C8_offsets_monotone_witness :
    ((1 : ℚ) * (1 : ℕ) < (1 : ℚ) * (2 : ℕ)) ∧
    (registeredOffsets 1 3)[2]? = some ((1 : ℚ) * (2 : ℕ)) := by
  constructor
  · exact (C8_offsets_monotone 1 3 (by norm_num)).1 1 2 (by norm_num)
  · exact (C8_offsets_monotone 1 3 (by norm_num)).2.2 2 (by norm_num)

/-- C9: invoking the pipeline twice in a row on the same Decoded Audio
Descriptor and configuration yields identical outcomes (hence snapshot
sequences of identical length and per-bin values): each invocation
constructs a fresh offline context, so the second run starts from the same
reset analyser state as the first and the ambient host state left by the
first run cannot influence it. -/
theorem C9_invoke_twice_deterministic (cap : List Nat → Nat → List Nat)
    (audio : AudioData) (options : Options) (host : Host) :
    (invoke cap audio options ((invoke cap audio options host).1)).2 =
      (invoke cap audio options host).2 := rfl

/-- C10: whenever `AudioData.getFrequencyData` resolves, the returned
`FrequencyData` has its `duration` field unset: the constructor accepts a
`duration` parameter, but the assembling call site at src/index.js lines
133-140 never supplies it. -/
theorem C10_duration_unset (cap : List Nat → Nat → List Nat)
    (audio : AudioData) (options : Options) (fd : FrequencyData)
    (h : AudioData.getFrequencyData cap audio options = .ok fd) :
    fd.duration = none := by
  obtain ⟨-, -, rfl⟩ := getFrequencyData_ok h
  rfl

/-- C10 witness: the result for `audioA` with `optsWide` carries no
duration. -/
theorem C10_duration_unset_witness :
    AudioData.getFrequencyData capZero audioA optsWide = .ok fdA ∧
    fdA.duration = none := by
  refine ⟨getFrequencyData_audioA, ?_⟩
  exact C10_duration_unset capZero audioA optsWide fdA getFrequencyData_audioA

end AudioFrequency
